import Mathlib

/-!
Shallow embedding of the `cross-tab-state` library: the value-cell hook
(`src/useCrossTabState.ts`) and the reducer-cell hook
(`src/useCrossTabReducer.ts`, together with the guarded, documented variant of
the same hook that the shipped `dist/index.js` bundle was compiled from).

Values are kept abstract (`Val`), together with the host platform's JSON codec
(`JSON.stringify` as `encode : Val → String`, `JSON.parse` as
`decode : String → Option Val`, where `none` models a thrown `SyntaxError`).
`localStorage` is a `String → Option String` map plus a writability flag
(`setItem` throws, e.g. `QuotaExceededError`, exactly when the flag is off).
`console.warn` calls are counted (`warns`), as are `JSON.parse` attempts
(`decodes`), so that the observability claims are stated over the model.
-/

namespace CTab

/-- A message posted on the `BroadcastChannel`: the source posts
`{ key, value: newValue }`, so the payload is the raw value, of type `Val`. -/
structure Msg (Val : Type) where
  key : String
  value : Val
deriving DecidableEq, Repr

/-- A `StorageEvent` as seen by the `storage` listeners: `e.key` and
`e.newValue` (which is `null` — here `none` — for deletions/clears). -/
structure StorageEv where
  key : String
  newValue : Option String
deriving DecidableEq, Repr

/-- The `localStorage` adapter: current entries plus whether writes succeed.
`writable = false` models quota exhaustion / storage disabled, in which case
`setItem` throws. -/
structure StoreAdapter where
  entries : String → Option String
  writable : Bool

/-- `localStorage.setItem(k, v)`: on success returns the updated store, on
failure throws (modelled as `Except.error`), leaving the store unchanged. -/
def StoreAdapter.setItem (st : StoreAdapter) (k v : String) :
    Except String StoreAdapter :=
  if st.writable then
    .ok { st with entries := fun q => if q = k then some v else st.entries q }
  else
    .error "QuotaExceededError"

/-- Result of a commit (one run of a `setState` updater): the value the
updater returns (the new in-memory value), the store after the attempted
`setItem`, the messages posted on the broadcast channel, and the number of
`console.warn` calls made. -/
structure CommitResult (Val : Type) where
  value : Val
  store : StoreAdapter
  broadcasts : List (Msg Val)
  warns : Nat

/-- The argument of `setCrossTabState`: either a direct value or an updater
function (`value: T | ((prev: T) => T)`). -/
def UpdateArg (Val : Type) : Type := Val ⊕ (Val → Val)

/-- The updater closure that `setCrossTabState` passes to React's `setState`
(src/useCrossTabState.ts, lines 117–152), run with `prev` being the latest
in-memory value at commit time. It computes `newValue` (calling the updater
on `prev` when the argument is a function), tries
`localStorage.setItem(key, JSON.stringify(newValue))` (failure caught and
warned), posts `{key, value: newValue}` on the channel when one is open
(`channelRef.current?.postMessage`; a `null` ref posts nothing), and returns
`newValue` as the new in-memory value. -/
def applyUpdate {Val : Type} (encode : Val → String) (key : String)
    (chanOpen : Bool) (st : StoreAdapter) (prev : Val) (arg : UpdateArg Val) :
    CommitResult Val :=
  let newValue : Val :=
    match arg with
    | Sum.inl v => v
    | Sum.inr f => f prev
  let stw : StoreAdapter × Nat :=
    match st.setItem key (encode newValue) with
    | .ok st2 => (st2, 0)
    | .error _ => (st, 1)
  let bs : List (Msg Val) := if chanOpen then [⟨key, newValue⟩] else []
  ⟨newValue, stw.1, bs, stw.2⟩

/-- Several `setCrossTabState` calls issued before React commits: each call
enqueues its argument (capturing only the argument, not the current value);
at commit React folds the queued updaters in order, each one reading the
value left by the previous one. Broadcasts are concatenated and warnings
summed across the queue. -/
def flushValueCell {Val : Type} (encode : Val → String) (key : String)
    (chanOpen : Bool) : List (UpdateArg Val) → StoreAdapter → Val →
    CommitResult Val
  | [], st, v => ⟨v, st, [], 0⟩
  | a :: rest, st, v =>
    let r := applyUpdate encode key chanOpen st v a
    let r2 := flushValueCell encode key chanOpen rest r.store r.value
    ⟨r2.value, r2.store, r.broadcasts ++ r2.broadcasts, r.warns + r2.warns⟩

/-- The `channel.onmessage` handler of the value cell
(src/useCrossTabState.ts, lines 68–73): if the message's key matches, the
in-memory value is replaced by the message's raw `value` field (no decode);
otherwise the message is ignored. -/
def onBroadcastValueCell {Val : Type} (key : String) (cur : Val)
    (msg : Msg Val) : Val :=
  if msg.key = key then msg.value else cur

/-- Result of running a `storage`-event handler: the resulting in-memory
value, the number of `console.warn` calls, and the number of `JSON.parse`
attempts made. -/
structure HandlerResult (Val : Type) where
  value : Val
  warns : Nat
  decodes : Nat
deriving Repr

/-- The `onStorage` handler of the value cell (src/useCrossTabState.ts,
lines 78–90): guarded by `e.key === key && e.newValue` (so a `null` or empty
`newValue` is skipped without any parse); inside the guard,
`JSON.parse(e.newValue)` is attempted in a try/catch — on success the value
is replaced, on failure a warning is logged and the value is unchanged. -/
def onStorageValueCell {Val : Type} (decode : String → Option Val)
    (key : String) (cur : Val) (ev : StorageEv) : HandlerResult Val :=
  match ev.newValue with
  | none => ⟨cur, 0, 0⟩
  | some s =>
    if ev.key = key ∧ s ≠ "" then
      match decode s with
      | some v => ⟨v, 0, 1⟩
      | none => ⟨cur, 1, 1⟩
    else ⟨cur, 0, 0⟩

/-- The `storage` handler of the reducer hook as committed in
src/useCrossTabReducer.ts (lines 29–33): same guard as the value cell's, but
`setState(JSON.parse(e.newValue))` is NOT wrapped in try/catch, so a parse
failure throws out of the handler (`Except.error`); on the non-throwing paths
it returns the resulting value and the number of parse attempts. -/
def onStorageReducerBare {Val : Type} (decode : String → Option Val)
    (key : String) (cur : Val) (ev : StorageEv) :
    Except String (Val × Nat) :=
  match ev.newValue with
  | none => .ok (cur, 0)
  | some s =>
    if ev.key = key ∧ s ≠ "" then
      match decode s with
      | some v => .ok (v, 1)
      | none => .error "SyntaxError"
    else .ok (cur, 0)

/-- The `storage` handler of the guarded reducer variant (the documented
duplicate of `useCrossTabReducer` that dist/index.js is compiled from): it is
identical to the value cell's `onStorage` — parse in try/catch, warn and keep
the current state on failure. -/
def onStorageReducerDoc {Val : Type} (decode : String → Option Val)
    (key : String) (cur : Val) (ev : StorageEv) : HandlerResult Val :=
  onStorageValueCell decode key cur ev

/-- Result of a cell initializer (the `useState` lazy initializer): the
initial in-memory value, the store afterwards (initialization performs no
write, so it is returned untouched by construction of the translation — there
is no `setItem` in the source initializer), and the `console.warn` count. -/
structure InitResult (Val : Type) where
  value : Val
  store : StoreAdapter
  warns : Nat

/-- The value cell initializer (src/useCrossTabState.ts, lines 39–53):
`saved = localStorage.getItem(key)`; `saved ? JSON.parse(saved) :
initialValue` in a try/catch. A missing entry or the (falsy) empty string
yields `initialValue` without a parse; a parse failure warns and yields
`initialValue`. Nothing is written back. -/
def initValueCell {Val : Type} (decode : String → Option Val)
    (st : StoreAdapter) (key : String) (ini : Val) : InitResult Val :=
  match st.entries key with
  | none => ⟨ini, st, 0⟩
  | some s =>
    if s = "" then ⟨ini, st, 0⟩
    else
      match decode s with
      | some v => ⟨v, st, 0⟩
      | none => ⟨ini, st, 1⟩

/-- The reducer hook initializer as committed in src/useCrossTabReducer.ts
(lines 8–15): same logic as the value cell's, but the `catch` block is empty —
the decode failure is swallowed silently (no `console.warn`). -/
def initReducerBare {Val : Type} (decode : String → Option Val)
    (st : StoreAdapter) (key : String) (ini : Val) : InitResult Val :=
  match st.entries key with
  | none => ⟨ini, st, 0⟩
  | some s =>
    if s = "" then ⟨ini, st, 0⟩
    else
      match decode s with
      | some v => ⟨v, st, 0⟩
      | none => ⟨ini, st, 0⟩

/-- The guarded reducer variant's initializer (documented duplicate /
dist/index.js): identical to the value cell's, warning on decode failure. -/
def initReducerDoc {Val : Type} (decode : String → Option Val)
    (st : StoreAdapter) (key : String) (ini : Val) : InitResult Val :=
  initValueCell decode st key ini

/-- The `dispatch` updater of the guarded reducer variant (documented
duplicate / dist/index.js): `newState = reducer(prev, action)`;
`localStorage.setItem(key, JSON.stringify(newState))` in a try/catch that
warns on failure; returns `newState`. No `postMessage` call appears anywhere
in the reducer hook, so the broadcast list is empty by construction. -/
def dispatchDoc {Val Act : Type} (encode : Val → String)
    (step : Val → Act → Val) (key : String) (st : StoreAdapter) (prev : Val)
    (a : Act) : CommitResult Val :=
  let newState := step prev a
  match st.setItem key (encode newState) with
  | .ok st2 => ⟨newState, st2, [], 0⟩
  | .error _ => ⟨newState, st, [], 1⟩

/-- The `dispatch` updater as committed in src/useCrossTabReducer.ts
(lines 17–26): `newState = reducer(prev, action)` followed by a bare
`localStorage.setItem(key, JSON.stringify(newState))` with NO try/catch — a
store failure throws out of the updater (so React aborts the state update and
the exception escapes). -/
def dispatchBare {Val Act : Type} (encode : Val → String)
    (step : Val → Act → Val) (key : String) (st : StoreAdapter) (prev : Val)
    (a : Act) : Except String (CommitResult Val) :=
  let newState := step prev a
  match st.setItem key (encode newState) with
  | .ok st2 => .ok ⟨newState, st2, [], 0⟩
  | .error e => .error e

/-- Several `dispatch` calls of the guarded reducer variant issued before
React commits: the queued updaters are folded in order, each reading the
state left by the previous one. -/
def flushDispatchDoc {Val Act : Type} (encode : Val → String)
    (step : Val → Act → Val) (key : String) : List Act → StoreAdapter → Val →
    CommitResult Val
  | [], st, v => ⟨v, st, [], 0⟩
  | a :: rest, st, v =>
    let r := dispatchDoc encode step key st v a
    let r2 := flushDispatchDoc encode step key rest r.store r.value
    ⟨r2.value, r2.store, r.broadcasts ++ r2.broadcasts, r.warns + r2.warns⟩

/-- The at-rest store invariant of the spec's data model: the entry for `key`
is either absent or decodes successfully. -/
def entryValidB {Val : Type} (decode : String → Option Val)
    (st : StoreAdapter) (key : String) : Bool :=
  match st.entries key with
  | none => true
  | some s => (decode s).isSome

/-- A mounted cell together with the platform's delivery registry state:
`broadcastOpen` is true while the `BroadcastChannel` handle is open (after
`channel.close()` the platform delivers no further messages to it, queued or
not), and `storageRegistered` is true while the `storage` listener is
registered (`removeEventListener` stops invocation). The effect cleanup of
both hooks closes the channel and removes the listener. -/
structure CellWorld (Val : Type) where
  value : Val
  broadcastOpen : Bool
  storageRegistered : Bool

/-- A remote delivery addressed at a context: either a broadcast-channel
message or a `storage` event. -/
inductive Delivery (Val : Type) where
  | broadcast (msg : Msg Val)
  | storage (ev : StorageEv)

/-- Platform delivery of one remote event to a cell: the matching handler
(from the source) runs only if its registration is still in place; after
`channel.close()` / `removeEventListener` the delivery is not processed. -/
def deliver {Val : Type} (decode : String → Option Val) (key : String)
    (w : CellWorld Val) : Delivery Val → CellWorld Val
  | .broadcast msg =>
    if w.broadcastOpen then
      { w with value := onBroadcastValueCell key w.value msg }
    else w
  | .storage ev =>
    if w.storageRegistered then
      { w with value := (onStorageValueCell decode key w.value ev).value }
    else w

/-- Teardown (the `useEffect` cleanup, src/useCrossTabState.ts lines 98–101
and src/useCrossTabReducer.ts line 35): `channel.close()` and
`window.removeEventListener("storage", handler)`. The in-memory value is
untouched. -/
def dispose {Val : Type} (w : CellWorld Val) : CellWorld Val :=
  { w with broadcastOpen := false, storageRegistered := false }

/-- The one fixed, library-wide broadcast topic
(`new BroadcastChannel("cross-tab-state")`). -/
def broadcastTopic : String := "cross-tab-state"

/-- A concrete fragment of the JavaScript value universe, rich enough to
distinguish a structured value from a string: integers and strings. -/
inductive JVal where
  | jint (n : Int)
  | jstr (s : String)
deriving DecidableEq, Repr

/-- `JSON.stringify` on the `JVal` fragment (strings are quoted; the model
omits escape sequences, which the fragment's uses here do not need). -/
def encodeJ : JVal → String
  | .jint n => toString n
  | .jstr s => "\"" ++ s ++ "\""

/-- A concrete two-value codec (`true` / `false`, as `JSON.stringify` and
`JSON.parse` behave on booleans), used to instantiate the parametric theorems
on concrete inputs. -/
def encodeB : Bool → String := fun b => if b then "true" else "false"

/-- `JSON.parse` restricted to the boolean fragment: any other text throws
(`none`). -/
def decodeB : String → Option Bool := fun s =>
  if s = "true" then some true
  else if s = "false" then some false
  else none

/-- `JSON.stringify` on integers. -/
def encodeI : Int → String := fun n => toString n

/-- Value of one decimal digit character. -/
def digToNat (c : Char) : Option Nat :=
  if c = '0' then some 0 else if c = '1' then some 1
  else if c = '2' then some 2 else if c = '3' then some 3
  else if c = '4' then some 4 else if c = '5' then some 5
  else if c = '6' then some 6 else if c = '7' then some 7
  else if c = '8' then some 8 else if c = '9' then some 9 else none

/-- Reads a decimal numeral; any non-digit character throws (`none`). -/
def natOfDigits : List Char → Nat → Option Nat
  | [], acc => some acc
  | c :: cs, acc =>
    match digToNat c with
    | some d => natOfDigits cs (acc * 10 + d)
    | none => none

/-- `JSON.parse` restricted to the integer fragment: an optionally
`-`-signed decimal numeral; any other text throws (`none`). -/
def decodeI (s : String) : Option Int :=
  match s.data with
  | [] => none
  | '-' :: cs =>
    if cs = [] then none
    else (natOfDigits cs 0).map (fun n => -(n : Int))
  | cs => (natOfDigits cs 0).map (fun n => (n : Int))

/-- An empty, writable store (fresh `localStorage`). -/
def emptyStore : StoreAdapter := ⟨fun _ => none, true⟩

/-- An empty store whose writes fail (quota exhausted / storage disabled). -/
def noQuotaStore : StoreAdapter := ⟨fun _ => none, false⟩

/-- A writable store holding the unparsable text `"xx"` under key `"k"`. -/
def garbageStore : StoreAdapter :=
  ⟨fun q => if q = "k" then some "xx" else none, true⟩

/-- A writable store holding the valid encoding `"7"` under key `"k"`. -/
def sevenStore : StoreAdapter :=
  ⟨fun q => if q = "k" then some "7" else none, true⟩

end CTab

namespace CTab

/-- The in-memory value a guarded dispatch commits is the reducer's result,
whatever the store write outcome. -/
lemma dispatchDoc_value {Val Act : Type} (encode : Val → String)
    (step : Val → Act → Val) (key : String) (st : StoreAdapter) (prev : Val)
    (a : Act) : (dispatchDoc encode step key st prev a).value = step prev a := by
  unfold dispatchDoc
  cases h2 : st.setItem key (encode (step prev a)) <;> simp [h2]

/-- Claim C1: a commit (functional mutate, or dispatch) computes the new value
from the latest in-memory value at commit time, not from the value captured at
call time; two rapid `mutate(c => c + 1)` calls issued without awaiting yield
`initial + 2`, never `initial + 1`, and two queued dispatches compose the
transition function: the second reads the state produced by the first. -/
theorem C1_functional_update_freshness :
    (∀ (v0 : Int) (st : StoreAdapter) (chanOpen : Bool),
      (flushValueCell encodeI "counter" chanOpen
          [Sum.inr (fun c => c + 1), Sum.inr (fun c => c + 1)] st v0).value
        = v0 + 2 ∧ v0 + 2 ≠ v0 + 1) ∧
    (∀ (Val : Type) (encode : Val → String) (key : String) (chanOpen : Bool)
        (st : StoreAdapter) (v0 : Val) (f g : Val → Val),
      (flushValueCell encode key chanOpen [Sum.inr f, Sum.inr g] st v0).value
        = g (f v0)) ∧
    (∀ (Val Act : Type) (encode : Val → String) (step : Val → Act → Val)
        (key : String) (st : StoreAdapter) (s0 : Val) (a1 a2 : Act),
      (flushDispatchDoc encode step key [a1, a2] st s0).value
        = step (step s0 a1) a2) := by
  refine ⟨fun v0 st chanOpen => ⟨?_, by omega⟩, ?_, ?_⟩
  · simp [flushValueCell, applyUpdate]
    ring
  · intro Val encode key chanOpen st v0 f g
    simp [flushValueCell, applyUpdate]
  · intro Val Act encode step key st s0 a1 a2
    simp [flushDispatchDoc, dispatchDoc_value]

/-- Claim C2 (evaluated at the failing input): with a store whose writes fail
(quota), the value cell's mutate keeps the in-memory commit (`value = 6`),
logs one warning, leaves the store unwritten and does not throw (it is a total
function), and the guarded reducer variant behaves the same — but the
`dispatch` committed in src/useCrossTabReducer.ts does not guard
`localStorage.setItem`, so the same input makes it throw
(`QuotaExceededError` escapes and the commit is aborted), contradicting the
claim for reducer cells. -/
theorem C2_persistence_failure_paths :
    (applyUpdate encodeI "k" true noQuotaStore (5 : Int) (Sum.inl 6)).value
      = 6 ∧
    (applyUpdate encodeI "k" true noQuotaStore (5 : Int) (Sum.inl 6)).warns
      = 1 ∧
    (applyUpdate encodeI "k" true noQuotaStore (5 : Int)
        (Sum.inl 6)).store.entries "k" = none ∧
    (dispatchDoc encodeI (fun (s : Int) (_ : Unit) => s + 1) "k" noQuotaStore
        5 ()).value = 6 ∧
    (dispatchDoc encodeI (fun (s : Int) (_ : Unit) => s + 1) "k" noQuotaStore
        5 ()).warns = 1 ∧
    dispatchBare encodeI (fun (s : Int) (_ : Unit) => s + 1) "k" noQuotaStore
        5 () = .error "QuotaExceededError" :=
  ⟨rfl, rfl, rfl, rfl, rfl, rfl⟩

/-- Claim C3 (evaluated at the failing input): a matching storage event whose
text `"xx"` fails to decode is logged and ignored by the value cell's handler
(value unchanged, one warning, no exception — the handler is total), and by
the guarded reducer variant's handler; but the handler committed in
src/useCrossTabReducer.ts parses outside any try/catch, so the same delivery
throws (`SyntaxError` escapes), contradicting the claim for reducer cells. -/
theorem C3_remote_decode_failure_paths :
    (onStorageValueCell decodeI "k" (5 : Int) ⟨"k", some "xx"⟩).value = 5 ∧
    (onStorageValueCell decodeI "k" (5 : Int) ⟨"k", some "xx"⟩).warns = 1 ∧
    (onStorageReducerDoc decodeI "k" (5 : Int) ⟨"k", some "xx"⟩).value = 5 ∧
    (onStorageReducerDoc decodeI "k" (5 : Int) ⟨"k", some "xx"⟩).warns = 1 ∧
    onStorageReducerBare decodeI "k" (5 : Int) ⟨"k", some "xx"⟩
      = .error "SyntaxError" :=
  ⟨rfl, rfl, rfl, rfl, rfl⟩

/-- Claim C4: a reducer cell's dispatch commits the new state to memory and to
the persistent store but publishes nothing on the broadcast transport (the
broadcast list of the commit is empty in both reducer variants); propagation
relies solely on the store commit, which writes the encoded new state. -/
theorem C4_dispatch_no_broadcast {Val Act : Type} (encode : Val → String)
    (step : Val → Act → Val) (key : String) (st : StoreAdapter) (prev : Val)
    (a : Act) (h : st.writable = true) :
    (dispatchDoc encode step key st prev a).broadcasts = [] ∧
    (∀ r, dispatchBare encode step key st prev a = .ok r →
      r.broadcasts = []) ∧
    (dispatchDoc encode step key st prev a).value = step prev a ∧
    (dispatchDoc encode step key st prev a).store.entries key
      = some (encode (step prev a)) := by
  refine ⟨?_, ?_, ?_, ?_⟩ <;>
    simp [dispatchDoc, dispatchBare, StoreAdapter.setItem, h]

/-- Witness for C4 at a concrete reducer cell (integer counter, key `"k"`,
fresh writable store). -/
theorem C4_dispatch_no_broadcast_witness :
    (dispatchDoc encodeI (fun (s : Int) (_ : Unit) => s + 1) "k" emptyStore 5
        ()).broadcasts = [] ∧
    (∀ r, dispatchBare encodeI (fun (s : Int) (_ : Unit) => s + 1) "k"
        emptyStore 5 () = .ok r → r.broadcasts = []) ∧
    (dispatchDoc encodeI (fun (s : Int) (_ : Unit) => s + 1) "k" emptyStore 5
        ()).value = 5 + 1 ∧
    (dispatchDoc encodeI (fun (s : Int) (_ : Unit) => s + 1) "k" emptyStore 5
        ()).store.entries "k" = some (encodeI (5 + 1)) :=
  C4_dispatch_no_broadcast encodeI (fun (s : Int) (_ : Unit) => s + 1) "k"
    emptyStore 5 () rfl

/-- Claim C5 (evaluated at the failing input and its neighbours): cold start
with an unparsable store entry `"xx"` under `"k"` gives a cell with
`initialValue = 42` the value `42`, writes nothing back, and in the value
cell (and guarded reducer variant) logs one warning; a stored `"7"` decodes
to `7`; a missing entry gives `42`. But the initializer committed in
src/useCrossTabReducer.ts swallows the decode failure silently (empty catch,
`warns = 0`), contradicting the claim's "the failure is logged" for reducer
cells. -/
theorem C5_cold_start_paths :
    (initValueCell decodeI garbageStore "k" (42 : Int)).value = 42 ∧
    (initValueCell decodeI garbageStore "k" (42 : Int)).warns = 1 ∧
    (initValueCell decodeI garbageStore "k" (42 : Int)).store.entries "k"
      = some "xx" ∧
    (initValueCell decodeI sevenStore "k" (42 : Int)).value = 7 ∧
    (initValueCell decodeI emptyStore "k" (42 : Int)).value = 42 ∧
    (initValueCell decodeI emptyStore "k" (42 : Int)).store.entries "k"
      = none ∧
    (initReducerBare decodeI garbageStore "k" (42 : Int)).value = 42 ∧
    (initReducerBare decodeI garbageStore "k" (42 : Int)).warns = 0 ∧
    (initReducerBare decodeI garbageStore "k" (42 : Int)).store.entries "k"
      = some "xx" ∧
    (initReducerDoc decodeI garbageStore "k" (42 : Int)).value = 42 ∧
    (initReducerDoc decodeI garbageStore "k" (42 : Int)).warns = 1 :=
  ⟨rfl, rfl, rfl, rfl, rfl, rfl, rfl, rfl, rfl, rfl, rfl⟩

/-- Counterexample to claim C6 as stated: committing the integer `1` under
key `"k"` posts the broadcast message `{key := "k", value := jint 1}` while
the canonical serialized text committed to the store is `"1"`; the message's
value component is the raw value, not that serialized text (as a JS value,
`jstr "1"`). -/
theorem C6_broadcast_payload_counterexample :
    (applyUpdate encodeJ "k" true emptyStore (JVal.jint 0)
        (Sum.inl (JVal.jint 1))).broadcasts = [⟨"k", JVal.jint 1⟩] ∧
    (applyUpdate encodeJ "k" true emptyStore (JVal.jint 0)
        (Sum.inl (JVal.jint 1))).store.entries "k" = some "1" ∧
    (⟨"k", JVal.jint 1⟩ : Msg JVal).value ≠ JVal.jstr "1" :=
  ⟨rfl, rfl, by decide⟩

/-- Claim C6 as amended: every message published by a value cell's mutate has
body `{key, value}` where the value component is the raw committed value
itself — the same value whose canonical serialization is simultaneously
committed to the store — and matching receivers apply it directly without
decoding. -/
theorem C6_broadcast_payload_raw {Val : Type} (encode : Val → String)
    (key : String) (st : StoreAdapter) (prev : Val) (arg : UpdateArg Val)
    (h : st.writable = true) :
    (applyUpdate encode key true st prev arg).broadcasts
      = [⟨key, (applyUpdate encode key true st prev arg).value⟩] ∧
    (applyUpdate encode key true st prev arg).store.entries key
      = some (encode (applyUpdate encode key true st prev arg).value) ∧
    (∀ (cur : Val) (msg : Msg Val), msg.key = key →
      onBroadcastValueCell key cur msg = msg.value) := by
  refine ⟨?_, ?_, ?_⟩
  · simp [applyUpdate]
  · simp [applyUpdate, StoreAdapter.setItem, h]
  · intro cur msg hk
    simp [onBroadcastValueCell, hk]

/-- Witness for the amended C6 at a concrete commit (integer `6` under key
`"k"` on a fresh writable store). -/
theorem C6_broadcast_payload_raw_witness :
    (applyUpdate encodeI "k" true emptyStore (5 : Int)
        (Sum.inl 6)).broadcasts
      = [⟨"k", (applyUpdate encodeI "k" true emptyStore (5 : Int)
          (Sum.inl 6)).value⟩] ∧
    (applyUpdate encodeI "k" true emptyStore (5 : Int)
        (Sum.inl 6)).store.entries "k"
      = some (encodeI (applyUpdate encodeI "k" true emptyStore (5 : Int)
          (Sum.inl 6)).value) ∧
    (∀ (cur : Int) (msg : Msg Int), msg.key = "k" →
      onBroadcastValueCell "k" cur msg = msg.value) :=
  C6_broadcast_payload_raw encodeI "k" emptyStore 5 (Sum.inl 6) rfl

/-- A successful `setItem` leaves the written encoding under the written
key. -/
lemma setItem_ok_entry {st st2 : StoreAdapter} {k s : String}
    (h : st.setItem k s = .ok st2) : st2.entries k = some s := by
  by_cases hw : st.writable <;> simp [StoreAdapter.setItem, hw] at h
  rw [← h]
  simp

/-- The store left by a value-cell commit: either the committed value's
encoding sits under the key, or (failed write) the store is untouched. -/
lemma applyUpdate_store {Val : Type} (encode : Val → String) (key : String)
    (chanOpen : Bool) (st : StoreAdapter) (prev : Val) (arg : UpdateArg Val) :
    (applyUpdate encode key chanOpen st prev arg).store.entries key
        = some (encode (applyUpdate encode key chanOpen st prev arg).value)
      ∨ (applyUpdate encode key chanOpen st prev arg).store = st := by
  unfold applyUpdate
  cases h2 : st.setItem key
      (encode (match arg with | Sum.inl v => v | Sum.inr f => f prev))
  · right; simp [h2]
  · left; simp [h2, setItem_ok_entry h2]

/-- The store left by a guarded dispatch: either the new state's encoding
sits under the key, or (failed write) the store is untouched. -/
lemma dispatchDoc_store {Val Act : Type} (encode : Val → String)
    (step : Val → Act → Val) (key : String) (st : StoreAdapter) (prev : Val)
    (a : Act) :
    (dispatchDoc encode step key st prev a).store.entries key
        = some (encode (step prev a))
      ∨ (dispatchDoc encode step key st prev a).store = st := by
  unfold dispatchDoc
  cases h2 : st.setItem key (encode (step prev a))
  · right; simp [h2]
  · left; simp [h2, setItem_ok_entry h2]

/-- A bare dispatch that returns (did not throw) wrote the new state's
encoding under the key. -/
lemma dispatchBare_ok_entry {Val Act : Type} {encode : Val → String}
    {step : Val → Act → Val} {key : String} {st : StoreAdapter} {prev : Val}
    {a : Act} {r : CommitResult Val}
    (hr : dispatchBare encode step key st prev a = .ok r) :
    r.store.entries key = some (encode (step prev a)) := by
  unfold dispatchBare at hr
  cases h2 : st.setItem key (encode (step prev a)) <;> simp [h2] at hr
  rw [← hr]
  exact setItem_ok_entry h2

/-- Cell initializers never write: the store they return is the store they
read. -/
lemma initValueCell_store {Val : Type} (decode : String → Option Val)
    (st : StoreAdapter) (key : String) (ini : Val) :
    (initValueCell decode st key ini).store = st := by
  unfold initValueCell
  cases h : st.entries key
  · rfl
  · rename_i s
    by_cases hs : s = "" <;> simp [hs]
    cases decode s <;> rfl

/-- The bare reducer initializer never writes either. -/
lemma initReducerBare_store {Val : Type} (decode : String → Option Val)
    (st : StoreAdapter) (key : String) (ini : Val) :
    (initReducerBare decode st key ini).store = st := by
  unfold initReducerBare
  cases h : st.entries key
  · rfl
  · rename_i s
    by_cases hs : s = "" <;> simp [hs]
    cases decode s <;> rfl

/-- An entry holding the encoding of some value is valid under a round-trip
codec. -/
lemma entryValidB_of_encode {Val : Type} {decode : String → Option Val}
    {encode : Val → String} {st : StoreAdapter} {key : String} {v : Val}
    (h : st.entries key = some (encode v)) (hr : decode (encode v) = some v) :
    entryValidB decode st key = true := by
  unfold entryValidB
  rw [h]
  simp [hr]

/-- Claim C7: every operation preserves the at-rest store invariant — after a
mutate (successful or failed write), a dispatch (either reducer variant, on
its non-throwing paths), or an initialization (which writes nothing), the
store's entry for the cell's key is either a validly-decodable encoding or
absent. -/
theorem C7_store_invariant_preserved {Val Act : Type} (encode : Val → String)
    (decode : String → Option Val) (hround : ∀ v, decode (encode v) = some v)
    (step : Val → Act → Val) (key : String) (st : StoreAdapter)
    (hvalid : entryValidB decode st key = true) :
    (∀ (chanOpen : Bool) (prev : Val) (arg : UpdateArg Val),
      entryValidB decode (applyUpdate encode key chanOpen st prev arg).store
        key = true) ∧
    (∀ (prev : Val) (a : Act),
      entryValidB decode (dispatchDoc encode step key st prev a).store key
        = true) ∧
    (∀ (prev : Val) (a : Act) (r : CommitResult Val),
      dispatchBare encode step key st prev a = .ok r →
      entryValidB decode r.store key = true) ∧
    (∀ ini : Val,
      entryValidB decode (initValueCell decode st key ini).store key
        = true) ∧
    (∀ ini : Val,
      entryValidB decode (initReducerBare decode st key ini).store key
        = true) := by
  refine ⟨?_, ?_, ?_, ?_, ?_⟩
  · intro chanOpen prev arg
    rcases applyUpdate_store encode key chanOpen st prev arg with h | h
    · exact entryValidB_of_encode h (hround _)
    · rw [h]; exact hvalid
  · intro prev a
    rcases dispatchDoc_store encode step key st prev a with h | h
    · exact entryValidB_of_encode h (hround _)
    · rw [h]; exact hvalid
  · intro prev a r hr
    exact entryValidB_of_encode (dispatchBare_ok_entry hr) (hround _)
  · intro ini
    rw [initValueCell_store]; exact hvalid
  · intro ini
    rw [initReducerBare_store]; exact hvalid

/-- Witness for C7 at a concrete boolean cell (round-trip boolean codec, key
`"k"`, fresh empty store): the invariant holds after a concrete mutate. -/
theorem C7_store_invariant_preserved_witness :
    entryValidB decodeB
      (applyUpdate encodeB "k" true emptyStore true (Sum.inl false)).store
      "k" = true :=
  (C7_store_invariant_preserved encodeB decodeB (by decide)
      (fun (s : Bool) (_ : Unit) => !s) "k" emptyStore (by decide)).1
    true true (Sum.inl false)

/-- Claim C8: a delivered remote message — broadcast or storage event — whose
key differs from the cell's key leaves the cell's in-memory value unchanged
(and attempts no decode), for the value cell and for both reducer-variant
handlers. -/
theorem C8_key_isolation {Val : Type} (decode : String → Option Val)
    (a b : String) (h : a ≠ b) (cur v : Val) (enc : Option String) :
    onBroadcastValueCell b cur ⟨a, v⟩ = cur ∧
    (onStorageValueCell decode b cur ⟨a, enc⟩).value = cur ∧
    (onStorageValueCell decode b cur ⟨a, enc⟩).decodes = 0 ∧
    (onStorageReducerDoc decode b cur ⟨a, enc⟩).value = cur ∧
    onStorageReducerBare decode b cur ⟨a, enc⟩ = .ok (cur, 0) := by
  refine ⟨?_, ?_, ?_, ?_, ?_⟩ <;>
      simp [onBroadcastValueCell, onStorageValueCell, onStorageReducerDoc,
        onStorageReducerBare, h] <;>
    cases enc <;> simp [h]

/-- Witness for C8: a concrete boolean cell watching `"b"` ignores a
broadcast and a storage event for `"a"`. -/
theorem C8_key_isolation_witness :
    onBroadcastValueCell "b" true (⟨"a", false⟩ : Msg Bool) = true ∧
    (onStorageValueCell decodeB "b" true ⟨"a", some "true"⟩).value = true ∧
    (onStorageValueCell decodeB "b" true ⟨"a", some "true"⟩).decodes = 0 ∧
    (onStorageReducerDoc decodeB "b" true ⟨"a", some "true"⟩).value = true ∧
    onStorageReducerBare decodeB "b" true ⟨"a", some "true"⟩
      = .ok (true, 0) :=
  C8_key_isolation decodeB "a" "b" (by decide) true false (some "true")

/-- A cell whose channel is closed and whose storage listener is removed is
left untouched by any single delivery. -/
lemma deliver_inactive {Val : Type} (decode : String → Option Val)
    (key : String) (w : CellWorld Val) (hb : w.broadcastOpen = false)
    (hs : w.storageRegistered = false) (d : Delivery Val) :
    deliver decode key w d = w := by
  cases d <;> simp [deliver, hb, hs]

/-- Claim C9: after teardown (`dispose`), no further remote deliveries —
broadcast messages or storage events, in any number and order — are
processed: the cell's last in-memory snapshot never changes again. -/
theorem C9_teardown_stops_delivery {Val : Type}
    (decode : String → Option Val) (key : String) (w : CellWorld Val)
    (ds : List (Delivery Val)) :
    (ds.foldl (deliver decode key) (dispose w)).value = w.value := by
  induction ds with
  | nil => rfl
  | cons d rest ih =>
    rw [List.foldl_cons, deliver_inactive decode key (dispose w) rfl rfl d]
    exact ih

/-- Claim C10: a storage event whose new value is absent (`null`, e.g. a
deletion or `clear`) or the empty string is skipped by the truthiness guard
even when the key matches: the in-memory value is unchanged and no decode is
attempted, in the value cell and in both reducer-variant handlers. -/
theorem C10_null_or_empty_storage_ignored {Val : Type}
    (decode : String → Option Val) (key : String) (cur : Val)
    (ev : StorageEv) (h : ev.newValue = none ∨ ev.newValue = some "") :
    (onStorageValueCell decode key cur ev).value = cur ∧
    (onStorageValueCell decode key cur ev).decodes = 0 ∧
    (onStorageValueCell decode key cur ev).warns = 0 ∧
    (onStorageReducerDoc decode key cur ev).value = cur ∧
    (onStorageReducerDoc decode key cur ev).decodes = 0 ∧
    onStorageReducerBare decode key cur ev = .ok (cur, 0) := by
  rcases h with h | h <;>
    simp [onStorageValueCell, onStorageReducerDoc, onStorageReducerBare, h]

/-- Witness for C10: a matching deletion event (`newValue = null`) on a
concrete boolean cell changes nothing and attempts no decode. -/
theorem C10_null_or_empty_storage_ignored_witness :
    (onStorageValueCell decodeB "k" true ⟨"k", none⟩).value = true ∧
    (onStorageValueCell decodeB "k" true ⟨"k", none⟩).decodes = 0 ∧
    (onStorageValueCell decodeB "k" true ⟨"k", none⟩).warns = 0 ∧
    (onStorageReducerDoc decodeB "k" true ⟨"k", none⟩).value = true ∧
    (onStorageReducerDoc decodeB "k" true ⟨"k", none⟩).decodes = 0 ∧
    onStorageReducerBare decodeB "k" true ⟨"k", none⟩ = .ok (true, 0) :=
  C10_null_or_empty_storage_ignored decodeB "k" true ⟨"k", none⟩
    (Or.inl rfl)

end CTab
